import Mathlib

/-!
Shallow embedding of `src/counter_app/app.js`: five React counter variants
(BasicCounter, FunctionalCounter, CallbackCounter, DataAttributeCounter,
ReducerCounter).  State updates queued through `setCount` are modelled as a
list of updates folded over the committed state, per the host framework's
ordering guarantee (updates applied in event order, each seeing the result of
the previous one).  JavaScript numbers reachable here are integers or NaN, so
they are modelled as `Option Int` with `none` for NaN.
-/

namespace CounterApp

/-- A single argument passed to `setCount`: either a plain replacement value
(`setCount(count + 1)` in `BasicCounter`) or a functional update
(`setCount(count => count + 1)` in the other `useState` variants). -/
inductive SetStateUpdate
  | replace (v : Int)
  | transform (f : Int → Int)

/-- Apply a queue of `setCount` updates to the committed state, in order, each
update seeing the result of the previous one (React's batching semantics). -/
def applyQueued (s : Int) (us : List SetStateUpdate) : Int :=
  us.foldl (fun c u => match u with
    | SetStateUpdate.replace v => v
    | SetStateUpdate.transform f => f c) s

/-- `BasicCounter` increment handler: the closure created at a render that saw
`count`, performing `setCount(count + 1)` with that captured value. -/
def basicIncrementHandler (count : Int) : SetStateUpdate :=
  SetStateUpdate.replace (count + 1)

/-- `BasicCounter` decrement handler: `setCount(count - 1)` with the captured
render-time value. -/
def basicDecrementHandler (count : Int) : SetStateUpdate :=
  SetStateUpdate.replace (count - 1)

/-- `FunctionalCounter` increment updater: `count => count + 1`. -/
def functionalIncrementUpdater : Int → Int := fun count => count + 1

/-- `FunctionalCounter` decrement updater: `count => count - 1`. -/
def functionalDecrementUpdater : Int → Int := fun count => count - 1

/-- `CallbackCounter` `increase` callback body: `count => count + 1`. -/
def callbackIncrease : Int → Int := fun count => count + 1

/-- `CallbackCounter` `decrease` callback body: `count => count - 1`. -/
def callbackDecrease : Int → Int := fun count => count - 1

/-- A user activation of one of the two controls of a counter variant. -/
inductive Activation
  | increment
  | decrement
deriving DecidableEq

/-- Number of increment activations in an event list. -/
def incCount (evs : List Activation) : Nat :=
  (evs.filter (fun e => e = Activation.increment)).length

/-- Number of decrement activations in an event list. -/
def decCount (evs : List Activation) : Nat :=
  (evs.filter (fun e => e = Activation.decrement)).length

/-- One committed transition of `FunctionalCounter`: the queued functional
update for the activated control, applied to the latest state. -/
def functionalStep (c : Int) : Activation → Int
  | Activation.increment => functionalIncrementUpdater c
  | Activation.decrement => functionalDecrementUpdater c

/-- `FunctionalCounter` run: fold the activation events over the initial
state `0` (`useState(0)`). -/
def functionalRun (evs : List Activation) : Int :=
  evs.foldl functionalStep 0

/-- One committed transition of `CallbackCounter`. -/
def callbackStep (c : Int) : Activation → Int
  | Activation.increment => callbackIncrease c
  | Activation.decrement => callbackDecrease c

/-- `CallbackCounter` run from initial state `0`. -/
def callbackRun (evs : List Activation) : Int :=
  evs.foldl callbackStep 0

/-- A JavaScript number as it occurs in this program: an integer, or NaN
(`none`). -/
abbrev JSNum := Option Int

/-- JavaScript addition on the numbers of this program: NaN is absorbing. -/
def jsAdd : JSNum → JSNum → JSNum
  | some a, some b => some (a + b)
  | _, _ => none

/-- Value of the digit string `ds` in base 10. -/
def parseDigits (ds : List Char) : Nat :=
  ds.foldl (fun n c => n * 10 + (c.toNat - Char.toNat c0)) 0
where c0 : Char := Char.ofNat 48

/-- Model of the JavaScript builtin `parseInt` with no radix argument, on the
decimal inputs this program can produce: skip leading whitespace, read an
optional sign and then the longest leading run of decimal digits, ignoring any
trailing characters; NaN (`none`) when no digit is found.  (The hexadecimal
`0x` special case of `parseInt` is not modelled; no string in this development
begins with it.) -/
def parseIntJS (s : String) : JSNum :=
  let cs := s.data.dropWhile Char.isWhitespace
  let signAndRest : Int × List Char :=
    match cs with
    | '-' :: r => (-1, r)
    | '+' :: r => (1, r)
    | r => (1, r)
  let ds := signAndRest.2.takeWhile Char.isDigit
  if ds.isEmpty then none
  else some (signAndRest.1 * (parseDigits ds : Int))

/-- `DataAttributeCounter` shared `update` handler, as one committed
transition: read the triggering control's `data-change` attribute (`none` when
absent), default a missing attribute to the string `"0"`
(`dataset.change ?? '0'`), parse it with `parseInt`, and queue
`count => count + change` against the latest state. -/
def dataUpdate (attr : Option String) (count : JSNum) : JSNum :=
  jsAdd count (parseIntJS (attr.getD "0"))

/-- The `data-change` attribute carried by each configured control of
`DataAttributeCounter`: `"-1"` on the decrement button, `"1"` on the
increment button. -/
def dataChangeOf : Activation → Option String
  | Activation.increment => some "1"
  | Activation.decrement => some "-1"

/-- One committed transition of `DataAttributeCounter` via its configured
controls. -/
def dataStep (c : JSNum) (e : Activation) : JSNum :=
  dataUpdate (dataChangeOf e) c

/-- `DataAttributeCounter` run from initial state `0`. -/
def dataRun (evs : List Activation) : JSNum :=
  evs.foldl dataStep (some 0)

/-- The state managed by `ReducerCounter`'s reducer. -/
structure CounterState where
  count : Int
deriving DecidableEq

/-- An action dispatched to the reducer: a tagged value, discriminated by its
`type` field. -/
structure Action where
  type : String
deriving DecidableEq

/-- The reducer of `ReducerCounter`: `switch (action.type)` with cases
`'increment'`, `'decrement'` and a default returning the state unchanged. -/
def reducer (state : CounterState) (action : Action) : CounterState :=
  if action.type = "increment" then { count := state.count + 1 }
  else if action.type = "decrement" then { count := state.count - 1 }
  else state

/-- `const initialState = { count: 0 }`. -/
def initialState : CounterState := { count := 0 }

/-- The action dispatched by each configured control of `ReducerCounter`. -/
def actionOf : Activation → Action
  | Activation.increment => { type := "increment" }
  | Activation.decrement => { type := "decrement" }

/-- `ReducerCounter` run: fold dispatched actions over `initialState`. -/
def reducerRun (evs : List Activation) : CounterState :=
  evs.foldl (fun s e => reducer s (actionOf e)) initialState

/-! ### Helper lemmas -/

lemma parse_one : parseIntJS "1" = some 1 := by decide

lemma parse_neg_one : parseIntJS "-1" = some (-1) := by decide

lemma incCount_cons (e : Activation) (evs : List Activation) :
    incCount (e :: evs) = (if e = Activation.increment then 1 else 0) + incCount evs := by
  cases e <;> simp [incCount, List.filter_cons] <;> omega

lemma decCount_cons (e : Activation) (evs : List Activation) :
    decCount (e :: evs) = (if e = Activation.decrement then 1 else 0) + decCount evs := by
  cases e <;> simp [decCount, List.filter_cons] <;> omega

lemma functionalRun_from (s : Int) (evs : List Activation) :
    evs.foldl functionalStep s = s + (incCount evs : Int) - (decCount evs : Int) := by
  induction evs generalizing s with
  | nil => simp [incCount, decCount]
  | cons e evs ih =>
    cases e <;>
      simp only [List.foldl_cons, functionalStep, functionalIncrementUpdater,
        functionalDecrementUpdater, ih, incCount_cons, decCount_cons, if_pos, if_neg,
        reduceCtorEq, if_true, if_false] <;>
      push_cast <;> ring

lemma callbackRun_from (s : Int) (evs : List Activation) :
    evs.foldl callbackStep s = s + (incCount evs : Int) - (decCount evs : Int) := by
  induction evs generalizing s with
  | nil => simp [incCount, decCount]
  | cons e evs ih =>
    cases e <;>
      simp only [List.foldl_cons, callbackStep, callbackIncrease, callbackDecrease, ih,
        incCount_cons, decCount_cons, if_pos, if_neg, reduceCtorEq, if_true, if_false] <;>
      push_cast <;> ring

lemma dataStep_some (n : Int) (e : Activation) :
    dataStep (some n) e = some (n + (if e = Activation.increment then 1 else -1)) := by
  cases e <;>
    simp [dataStep, dataUpdate, dataChangeOf, jsAdd, parse_one, parse_neg_one]

lemma dataRun_from (s : Int) (evs : List Activation) :
    evs.foldl dataStep (some s) = some (s + (incCount evs : Int) - (decCount evs : Int)) := by
  induction evs generalizing s with
  | nil => simp [incCount, decCount]
  | cons e evs ih =>
    cases e <;>
      simp only [List.foldl_cons, dataStep_some, ih, incCount_cons, decCount_cons, if_pos,
        if_neg, reduceCtorEq, if_true, if_false, Option.some_inj] <;>
      push_cast <;> ring

lemma reducer_actionOf (n : Int) (e : Activation) :
    reducer ⟨n⟩ (actionOf e) = ⟨n + (if e = Activation.increment then 1 else -1)⟩ := by
  cases e <;> simp [reducer, actionOf] <;> ring

lemma reducerRun_from (s : Int) (evs : List Activation) :
    evs.foldl (fun st e => reducer st (actionOf e)) ⟨s⟩ =
      ⟨s + (incCount evs : Int) - (decCount evs : Int)⟩ := by
  induction evs generalizing s with
  | nil => simp [incCount, decCount]
  | cons e evs ih =>
    cases e <;>
      simp only [List.foldl_cons, reducer_actionOf, ih, incCount_cons, decCount_cons, if_pos,
        if_neg, reduceCtorEq, if_true, if_false, CounterState.mk.injEq] <;>
      push_cast <;> ring

/-! ### Claim theorems -/

/-- C1: for each latest-state variant (FunctionalCounter, CallbackCounter,
DataAttributeCounter via its configured controls, ReducerCounter), starting
from count 0, any interleaving of increment and decrement activations,
applied in event order with each update seeing the previous result, yields a
final count of (number of increments) minus (number of decrements). -/
theorem latest_state_interleaving_net_count (evs : List Activation) :
    functionalRun evs = (incCount evs : Int) - (decCount evs : Int) ∧
    callbackRun evs = (incCount evs : Int) - (decCount evs : Int) ∧
    dataRun evs = some ((incCount evs : Int) - (decCount evs : Int)) ∧
    (reducerRun evs).count = (incCount evs : Int) - (decCount evs : Int) := by
  refine ⟨?_, ?_, ?_, ?_⟩
  · rw [functionalRun, functionalRun_from]; ring
  · rw [callbackRun, callbackRun_from]; ring
  · rw [dataRun, dataRun_from]; ring_nf
  · show (List.foldl (fun st e => reducer st (actionOf e)) ⟨0⟩ evs).count = _
    rw [reducerRun_from]; ring

/-- C2: in BasicCounter, two increment activations dispatched from the same
captured closure (both handlers created at a render that saw count `c`, with
no re-render in between) commit a final count of `c + 1`, not `c + 2`. -/
theorem basic_two_increments_same_closure (c : Int) :
    applyQueued c [basicIncrementHandler c, basicIncrementHandler c] = c + 1 ∧
    applyQueued c [basicIncrementHandler c, basicIncrementHandler c] ≠ c + 2 := by
  constructor
  · rfl
  · show c + 1 ≠ c + 2
    omega

/-- C3 counterexample: the claim says a delta attribute that is present but
not parseable as an integer is treated as delta 0, leaving count unchanged.
In the code, `parseInt` returns NaN on such a value and `count + NaN` is NaN:
with attribute value `"abc"` and count 0 the handler does not leave the count
at 0 — it produces NaN. -/
theorem data_nonnumeric_attribute_not_zero_delta :
    dataUpdate (some "abc") (some 0) = none ∧
    dataUpdate (some "abc") (some 0) ≠ some 0 := by
  constructor
  · decide
  · decide

/-- C3 amended: for every activation whose triggering control's delta
attribute is absent, the handler substitutes the string `"0"`, parses it to
delta 0, and leaves the count unchanged. -/
theorem data_missing_attribute_zero_delta (n : Int) :
    parseIntJS ((none : Option String).getD "0") = some 0 ∧
    dataUpdate none (some n) = some n := by
  constructor
  · decide
  · simp [dataUpdate, jsAdd, show parseIntJS "0" = some 0 from by decide]

/-- C4: the reducer returns its state unchanged for every action whose
discriminant is neither `"increment"` nor `"decrement"`; it is a total
function, so no error is raised. -/
theorem reducer_unknown_action_identity (s : CounterState) (a : Action)
    (h1 : a.type ≠ "increment") (h2 : a.type ≠ "decrement") :
    reducer s a = s := by
  simp [reducer, h1, h2]

/-- Witness for C4 at state `{ count := 5 }` and action `{ type := "reset" }`. -/
theorem reducer_unknown_action_identity_witness :
    reducer ⟨5⟩ ⟨"reset"⟩ = ⟨5⟩ :=
  reducer_unknown_action_identity ⟨5⟩ ⟨"reset"⟩ (by decide) (by decide)

/-- C5: the reducer implements exactly the transition table — `"increment"`
maps count to count + 1, `"decrement"` maps count to count - 1 — with initial
state `{ count := 0 }`, and dispatching `"increment"` twice from the initial
state yields count 2. -/
theorem reducer_transition_table (s : CounterState) :
    reducer s ⟨"increment"⟩ = ⟨s.count + 1⟩ ∧
    reducer s ⟨"decrement"⟩ = ⟨s.count - 1⟩ ∧
    initialState = ⟨0⟩ ∧
    (reducer (reducer initialState ⟨"increment"⟩) ⟨"increment"⟩).count = 2 := by
  refine ⟨?_, ?_, rfl, ?_⟩
  · simp [reducer]
  · simp [reducer]
  · decide

/-- C6 counterexample: the claim says the update handler substitutes a zero
delta for any missing or non-numeric delta, preserving the integer invariant.
For a present but non-numeric attribute value `"x"` the handler instead turns
count 5 into NaN, which is not a well-defined integer. -/
theorem data_nonnumeric_attribute_yields_nan :
    dataUpdate (some "x") (some 5) = none ∧
    (none : JSNum) ≠ some 5 := by
  constructor
  · decide
  · decide

/-- C6 amended: after every sequence of activations of the configured
controls, DataAttributeCounter's count is a well-defined integer (never NaN),
and the handler substitutes a zero delta when the attribute is missing.  (The
other variants' counts are integers by construction: their transitions are
integer-valued.) -/
theorem count_always_well_defined_integer (evs : List Activation) (n : Int) :
    (dataRun evs).isSome = true ∧
    dataUpdate none (some n) = some n := by
  constructor
  · rw [dataRun, dataRun_from]; rfl
  · simp [dataUpdate, jsAdd, show parseIntJS "0" = some 0 from by decide]

/-- C7: CallbackCounter's increment and decrement updaters are extensionally
equal to FunctionalCounter's: at every current count they produce the same
next count. -/
theorem callback_refines_functional (c : Int) :
    callbackIncrease c = functionalIncrementUpdater c ∧
    callbackDecrease c = functionalDecrementUpdater c :=
  ⟨rfl, rfl⟩

/-- C8: in DataAttributeCounter the decrement control carries `data-change`
value `"-1"` (delta -1) and the increment control carries `"1"` (delta +1);
the shared handler adds the parsed delta to the latest count; and a single
decrement activation from the initial state 0 yields count -1. -/
theorem data_configured_controls_and_decrement (c : Int) :
    dataChangeOf Activation.decrement = some "-1" ∧
    dataChangeOf Activation.increment = some "1" ∧
    parseIntJS "-1" = some (-1) ∧
    parseIntJS "1" = some 1 ∧
    dataStep (some c) Activation.decrement = some (c + (-1)) ∧
    dataStep (some c) Activation.increment = some (c + 1) ∧
    dataRun [Activation.decrement] = some (-1) := by
  refine ⟨rfl, rfl, by decide, by decide, ?_, ?_, by decide⟩
  · rw [dataStep_some]; rfl
  · rw [dataStep_some]; rfl

/-- C9: for every variant's transition functions, increment and decrement are
mutual inverses.  BasicCounter is taken with a re-render between the two
activations (each handler captures the then-current count); the
data-attribute round trip holds for every JavaScript number, NaN included. -/
theorem increment_decrement_mutual_inverses (c : Int) (j : JSNum) (s : CounterState) :
    functionalDecrementUpdater (functionalIncrementUpdater c) = c ∧
    functionalIncrementUpdater (functionalDecrementUpdater c) = c ∧
    callbackDecrease (callbackIncrease c) = c ∧
    callbackIncrease (callbackDecrease c) = c ∧
    applyQueued (applyQueued c [basicIncrementHandler c])
      [basicDecrementHandler (applyQueued c [basicIncrementHandler c])] = c ∧
    applyQueued (applyQueued c [basicDecrementHandler c])
      [basicIncrementHandler (applyQueued c [basicDecrementHandler c])] = c ∧
    dataStep (dataStep j Activation.increment) Activation.decrement = j ∧
    dataStep (dataStep j Activation.decrement) Activation.increment = j ∧
    reducer (reducer s ⟨"increment"⟩) ⟨"decrement"⟩ = s ∧
    reducer (reducer s ⟨"decrement"⟩) ⟨"increment"⟩ = s := by
  refine ⟨?_, ?_, ?_, ?_, ?_, ?_, ?_, ?_, ?_, ?_⟩
  · simp [functionalIncrementUpdater, functionalDecrementUpdater]
  · simp [functionalIncrementUpdater, functionalDecrementUpdater]
  · simp [callbackIncrease, callbackDecrease]
  · simp [callbackIncrease, callbackDecrease]
  · simp [applyQueued, basicIncrementHandler, basicDecrementHandler]
  · simp [applyQueued, basicIncrementHandler, basicDecrementHandler]
  · cases j with
    | none => rfl
    | some n => rw [dataStep_some, dataStep_some]; simp
  · cases j with
    | none => rfl
    | some n => rw [dataStep_some, dataStep_some]; simp
  · simp [reducer]
  · simp [reducer]

/-- C10: the reducer is a pure function of its arguments: on `"increment"`
and `"decrement"` it returns a freshly constructed state (a value distinct
from the input), and on any other discriminant it returns the input state
itself; in all cases the input state value is unaffected (the embedding
models state objects as immutable values, so mutation-freedom is intrinsic
and object identity is read as value identity). -/
theorem reducer_never_mutates_state (s : CounterState) (a : Action) :
    (a.type = "increment" → reducer s a = ⟨s.count + 1⟩ ∧ reducer s a ≠ s) ∧
    (a.type = "decrement" → reducer s a = ⟨s.count - 1⟩ ∧ reducer s a ≠ s) ∧
    (a.type ≠ "increment" → a.type ≠ "decrement" → reducer s a = s) := by
  refine ⟨?_, ?_, ?_⟩
  · intro h
    constructor
    · simp [reducer, h]
    · simp only [reducer, h, if_true, reduceIte]
      intro heq
      have : s.count + 1 = s.count := congrArg CounterState.count heq
      omega
  · intro h
    constructor
    · simp [reducer, h]
    · simp only [reducer, h]
      by_cases hinc : (("decrement" : String) = "increment")
      · exact absurd hinc (by decide)
      · intro heq
        have h2 : ({ count := s.count - 1 } : CounterState) = s := by
          simpa [reducer, h, hinc] using heq
        have : s.count - 1 = s.count := congrArg CounterState.count h2
        omega
  · intro h1 h2
    simp [reducer, h1, h2]

/-- Witness for C10 at state `{ count := 7 }` and action `{ type := "noop" }`:
the unknown-discriminant branch returns the input state itself. -/
theorem reducer_never_mutates_state_witness :
    reducer ⟨7⟩ ⟨"noop"⟩ = ⟨7⟩ :=
  (reducer_never_mutates_state ⟨7⟩ ⟨"noop"⟩).2.2 (by decide) (by decide)

end CounterApp
